import Mathlib

/-!
# Verification of the expo-text-extractor unified extraction core

Shallow embedding of the cross-platform coordinate / result-normalization
layer of `expo-text-extractor` (files `src/utils/coordinates.ts`,
`src/utils/adapters.ts`, `src/utils/projection.ts` and the unified
extraction API `extractTextFromImageAdvanced`).

Modelling conventions:
* JavaScript numbers are modelled as rationals (`ℚ`); `Math.round` is
  Mathlib's `round` (`round x = ⌊x + 1/2⌋`, which is exactly JavaScript's
  round-half-towards-positive-infinity).
* Optional TypeScript fields (`f?: T`) are `Option` fields; an absent key
  and an `undefined` value are identified.
* JavaScript truthiness on numbers/strings (`a || b`, `if (x)`) is modelled
  explicitly: `0` and `""` are falsy, arrays and objects are always truthy.
* `async` control flow is sequentialized; the native module is modelled as
  a record of optional functions which may fail (`Except`), and every
  native invocation performed by the unified API is recorded in a call
  log so that "no native call is attempted" is a provable statement.
* Wall-clock timing (`Date.now()` differences) is outside the pure
  fragment; the `recognitionTimeMs` field is modelled as the constant 0.
-/

namespace TextExtractor

/-- Image dimensions for coordinate transformations (`ImageDimensions`). -/
structure ImageDimensions where
  width : ℚ
  height : ℚ
deriving DecidableEq, Repr

/-- A Vision-style normalized box `{x, y, width, height}` ([0..1], bottom-left origin). -/
structure VisionBox where
  x : ℚ
  y : ℚ
  width : ℚ
  height : ℚ
deriving DecidableEq, Repr

/-- `UnifiedBoundingBox`: pixel and percent coordinates, top-left origin. -/
structure UnifiedBoundingBox where
  x : ℚ
  y : ℚ
  width : ℚ
  height : ℚ
  xPercent : ℚ
  yPercent : ℚ
  widthPercent : ℚ
  heightPercent : ℚ
deriving DecidableEq, Repr

/-- `UnifiedPoint`: pixel and percent coordinates of a point. -/
structure UnifiedPoint where
  x : ℚ
  y : ℚ
  xPercent : ℚ
  yPercent : ℚ
deriving DecidableEq, Repr

/-- ML Kit pixel rectangle (`RectBox`). -/
structure RectBox where
  x : ℚ
  y : ℚ
  width : ℚ
  height : ℚ
deriving DecidableEq, Repr

/-- ML Kit pixel point (`MLKPoint`). -/
structure MLKPoint where
  x : ℚ
  y : ℚ
deriving DecidableEq, Repr

/-- `visionToUnifiedBoundingBox` from `src/utils/coordinates.ts`:
normalized bottom-left-origin box to unified pixel+percent top-left box. -/
def visionToUnifiedBoundingBox (visionBox : VisionBox) (imageSize : ImageDimensions) :
    UnifiedBoundingBox :=
  let pixelX := visionBox.x * imageSize.width
  let pixelWidth := visionBox.width * imageSize.width
  let pixelHeight := visionBox.height * imageSize.height
  let pixelY := imageSize.height - visionBox.y * imageSize.height - pixelHeight
  { x := (round pixelX : ℤ)
    y := (round pixelY : ℤ)
    width := (round pixelWidth : ℤ)
    height := (round pixelHeight : ℤ)
    xPercent := visionBox.x
    yPercent := 1 - visionBox.y - visionBox.height
    widthPercent := visionBox.width
    heightPercent := visionBox.height }

/-- `unifiedToVisionBoundingBox` from `src/utils/coordinates.ts`:
derived from the percent fields (never the pixel fields). -/
def unifiedToVisionBoundingBox (unifiedBox : UnifiedBoundingBox)
    (_imageSize : ImageDimensions) : VisionBox :=
  { x := unifiedBox.xPercent
    y := 1 - unifiedBox.yPercent - unifiedBox.heightPercent
    width := unifiedBox.widthPercent
    height := unifiedBox.heightPercent }

/-- `mlkitToUnifiedBoundingBox` from `src/utils/coordinates.ts`:
pixel top-left box; only the percent fields are computed. -/
def mlkitToUnifiedBoundingBox (mlkitBox : RectBox) (imageSize : ImageDimensions) :
    UnifiedBoundingBox :=
  { x := (round mlkitBox.x : ℤ)
    y := (round mlkitBox.y : ℤ)
    width := (round mlkitBox.width : ℤ)
    height := (round mlkitBox.height : ℤ)
    xPercent := mlkitBox.x / imageSize.width
    yPercent := mlkitBox.y / imageSize.height
    widthPercent := mlkitBox.width / imageSize.width
    heightPercent := mlkitBox.height / imageSize.height }

/-- `unifiedToMlkitBoundingBox` from `src/utils/coordinates.ts`. -/
def unifiedToMlkitBoundingBox (unifiedBox : UnifiedBoundingBox) : RectBox :=
  { x := unifiedBox.x, y := unifiedBox.y
    width := unifiedBox.width, height := unifiedBox.height }

/-- `mlkitToUnifiedPoints` from `src/utils/coordinates.ts`. -/
def mlkitToUnifiedPoints (mlkitPoints : List MLKPoint) (imageSize : ImageDimensions) :
    List UnifiedPoint :=
  mlkitPoints.map fun point =>
    { x := (round point.x : ℤ)
      y := (round point.y : ℤ)
      xPercent := point.x / imageSize.width
      yPercent := point.y / imageSize.height }

/-- A box-or-point union, mirroring `UnifiedBoundingBox | UnifiedPoint`
(the code discriminates with `'width' in coords`). -/
inductive UnifiedCoords where
  | box : UnifiedBoundingBox → UnifiedCoords
  | point : UnifiedPoint → UnifiedCoords
deriving DecidableEq, Repr

/-- `projectToOverlay` from `src/utils/projection.ts`: projects the percent
fields of its argument onto `overlaySize`; `originalImageSize` is unused. -/
def projectToOverlay (coords : UnifiedCoords) (_originalImageSize : ImageDimensions)
    (overlaySize : ImageDimensions) : UnifiedCoords :=
  match coords with
  | .box b =>
      .box { x := (round (b.xPercent * overlaySize.width) : ℤ)
             y := (round (b.yPercent * overlaySize.height) : ℤ)
             width := (round (b.widthPercent * overlaySize.width) : ℤ)
             height := (round (b.heightPercent * overlaySize.height) : ℤ)
             xPercent := b.xPercent
             yPercent := b.yPercent
             widthPercent := b.widthPercent
             heightPercent := b.heightPercent }
  | .point p =>
      .point { x := (round (p.xPercent * overlaySize.width) : ℤ)
               y := (round (p.yPercent * overlaySize.height) : ℤ)
               xPercent := p.xPercent
               yPercent := p.yPercent }

/-! ## JavaScript truthiness helpers -/

/-- JavaScript `a || b` for an optional number `a` (`undefined` and `0` are falsy). -/
def jsOrQ (a : Option ℚ) (b : ℚ) : ℚ :=
  match a with
  | none => b
  | some x => if x = 0 then b else x

/-- JavaScript `a || b` for an optional string `a` (`undefined` and `""` are falsy). -/
def jsOrStr (a : Option String) (b : String) : String :=
  match a with
  | none => b
  | some s => if s = "" then b else s

/-- JavaScript `String.prototype.replace` with a string pattern: replaces the
FIRST occurrence of `pat` (scanning left to right) by `repl`; a string with no
occurrence is returned unchanged. -/
def replaceFirstAux (pat repl : List Char) : List Char → List Char
  | [] => if pat.isEmpty then repl else []
  | c :: rest =>
      if pat.isPrefixOf (c :: rest) then repl ++ (c :: rest).drop pat.length
      else c :: replaceFirstAux pat repl rest

/-- `s.replace(pat, repl)` in JavaScript (string pattern: first occurrence only). -/
def jsStringReplace (s pat repl : String) : String :=
  ⟨replaceFirstAux pat.toList repl.toList s.toList⟩

/-- Decidable check that `pat` occurs as a contiguous subsequence of `s`,
scanning the same way `replaceFirstAux` does. -/
def containsSeq (pat : List Char) : List Char → Bool
  | [] => pat.isEmpty
  | c :: rest => pat.isPrefixOf (c :: rest) || containsSeq pat rest

/-! ## iOS raw result types (`src/types/ios.ts`) -/

/-- `RecognizedTextCandidate`. -/
structure RecognizedTextCandidate where
  text : String
  confidence : ℚ
deriving DecidableEq, Repr

/-- `VNRecognizedTextObservation`. -/
structure VNRecognizedTextObservation where
  boundingBox : VisionBox
  candidates : List RecognizedTextCandidate
deriving DecidableEq, Repr

/-- The `effectiveRequest` echo inside `RecognizeTextIOSResult`. Recognition
levels are modelled as strings ("fast" / "accurate"); `regionOfInterest` is
`Option` because the adapter tests it for truthiness at runtime. -/
structure IOSEffectiveRequest where
  recognitionLevel : String
  recognitionLanguages : List String
  usesLanguageCorrection : Bool
  revision : ℚ
  minimumTextHeight : Option ℚ
  regionOfInterest : Option VisionBox
  customWords : Option (List String)
  automaticallyDetectsLanguage : Option Bool
  maxCandidates : Option ℚ
deriving DecidableEq, Repr

/-- `RecognizeTextIOSResult`. -/
structure RecognizeTextIOSResult where
  observations : List VNRecognizedTextObservation
  imageSize : ImageDimensions
  effectiveRequest : IOSEffectiveRequest
deriving DecidableEq, Repr

/-! ## Android raw result types (`src/types/android.ts`) -/

/-- `MLKSymbol`. -/
structure MLKSymbol where
  text : String
  boundingBox : Option RectBox
  cornerPoints : Option (List MLKPoint)
  confidence : Option ℚ
  rotationDegree : Option ℚ
deriving DecidableEq, Repr

/-- `MLKTextElement`. -/
structure MLKTextElement where
  text : String
  boundingBox : Option RectBox
  cornerPoints : Option (List MLKPoint)
  recognizedLanguage : Option String
  confidence : Option ℚ
  rotationDegree : Option ℚ
  symbols : Option (List MLKSymbol)
deriving DecidableEq, Repr

/-- `MLKTextLine`. -/
structure MLKTextLine where
  text : String
  boundingBox : Option RectBox
  cornerPoints : Option (List MLKPoint)
  elements : List MLKTextElement
  recognizedLanguage : Option String
  confidence : Option ℚ
  rotationDegree : Option ℚ
deriving DecidableEq, Repr

/-- `MLKTextBlock`. -/
structure MLKTextBlock where
  text : String
  boundingBox : Option RectBox
  cornerPoints : Option (List MLKPoint)
  lines : List MLKTextLine
  recognizedLanguage : Option String
deriving DecidableEq, Repr

/-- `RecognizeTextAndroidResult` (the `effectiveRequest.model` echo is a string,
always "latin" in practice). -/
structure RecognizeTextAndroidResult where
  blocks : List MLKTextBlock
  fullText : String
  imageSize : ImageDimensions
  effectiveRequestModel : String
deriving DecidableEq, Repr

/-- `ExtractTextAndroidOptions`. -/
structure ExtractTextAndroidOptions where
  model : Option String
deriving DecidableEq, Repr

/-! ## Unified types (`src/types/unified.ts`) -/

/-- `UnifiedTextCandidate`. -/
structure UnifiedTextCandidate where
  text : String
  confidence : ℚ
deriving DecidableEq, Repr

/-- iOS member of `UnifiedTextRegion.platformData`. -/
structure IOSPlatformData where
  normalizedBoundingBox : VisionBox
  observationType : Option String
deriving DecidableEq, Repr

/-- Android member of `UnifiedTextRegion.platformData` (hierarchy level is a
string among "block" / "line" / "element" / "symbol"). -/
structure AndroidPlatformData where
  hierarchyLevel : String
  parentId : Option String
  childIds : Option (List String)
deriving DecidableEq, Repr

/-- `UnifiedTextRegion.platformData`. -/
structure PlatformData where
  ios : Option IOSPlatformData
  android : Option AndroidPlatformData
deriving DecidableEq, Repr

/-- `UnifiedTextRegion`. -/
structure UnifiedTextRegion where
  text : String
  candidates : List UnifiedTextCandidate
  boundingBox : UnifiedBoundingBox
  cornerPoints : Option (List UnifiedPoint)
  confidence : ℚ
  recognizedLanguage : Option String
  rotationDegree : Option ℚ
  platformData : Option PlatformData
deriving DecidableEq, Repr

/-- `UnifiedTextExtractionOptions` (every field optional; recognition level is
a string among "fast" / "accurate"). -/
structure UnifiedTextExtractionOptions where
  recognitionLevel : Option String := none
  recognitionLanguages : Option (List String) := none
  regionOfInterest : Option UnifiedBoundingBox := none
  minimumTextHeight : Option ℚ := none
  customWords : Option (List String) := none
  maxCandidates : Option ℚ := none
deriving DecidableEq, Repr

/-- The `performance` member of `UnifiedTextExtractionResult`. -/
structure PerformanceInfo where
  recognitionTimeMs : Option ℚ
  regionsDetected : Nat
deriving DecidableEq, Repr

/-- The `platformResult` member of `UnifiedTextExtractionResult`. -/
structure PlatformResult where
  ios : Option RecognizeTextIOSResult
  android : Option RecognizeTextAndroidResult
deriving DecidableEq, Repr

/-- `UnifiedTextExtractionResult` (`platform` is a string, "ios" or "android"). -/
structure UnifiedTextExtractionResult where
  regions : List UnifiedTextRegion
  fullText : String
  imageSize : ImageDimensions
  platform : String
  effectiveOptions : UnifiedTextExtractionOptions
  performance : Option PerformanceInfo
  platformResult : Option PlatformResult
deriving DecidableEq, Repr

/-! ## Result adapters (`src/utils/adapters.ts`) -/

/-- Body of the `observations.map` callback in `iosResultToUnified`:
one Vision observation becomes one `UnifiedTextRegion`.  The `index`
parameter of the callback is unused by the source and omitted here.
The `primaryCandidate?.text || ''` and `?.confidence || 0` fallbacks use
JavaScript truthiness (`jsOrStr` / `jsOrQ`). -/
def iosObservationToRegion (imageSize : ImageDimensions)
    (observation : VNRecognizedTextObservation) : UnifiedTextRegion :=
  let unifiedBoundingBox := visionToUnifiedBoundingBox observation.boundingBox imageSize
  let candidates : List UnifiedTextCandidate :=
    observation.candidates.map fun candidate =>
      { text := candidate.text, confidence := candidate.confidence }
  let primaryCandidate := candidates.head?
  { text := jsOrStr (primaryCandidate.map (·.text)) ""
    candidates := candidates
    boundingBox := unifiedBoundingBox
    cornerPoints := none
    confidence := jsOrQ (primaryCandidate.map (·.confidence)) 0
    recognizedLanguage := none
    rotationDegree := none
    platformData := some
      { ios := some
          { normalizedBoundingBox := observation.boundingBox
            observationType := some "VNRecognizedTextObservation" }
        android := none } }

/-- `iosResultToUnified` from `src/utils/adapters.ts`.  `originalOptions` is
accepted and ignored, exactly as in the source.  `recognitionTimeMs`
(wall-clock `Date.now()` difference) is modelled as 0. -/
def iosResultToUnified (iosResult : RecognizeTextIOSResult)
    (_originalOptions : Option UnifiedTextExtractionOptions) :
    UnifiedTextExtractionResult :=
  let regions := iosResult.observations.map (iosObservationToRegion iosResult.imageSize)
  let fullText := String.intercalate " " (regions.map (·.text))
  { regions := regions
    fullText := fullText
    imageSize := iosResult.imageSize
    platform := "ios"
    effectiveOptions :=
      { recognitionLevel := some iosResult.effectiveRequest.recognitionLevel
        recognitionLanguages := some iosResult.effectiveRequest.recognitionLanguages
        regionOfInterest := iosResult.effectiveRequest.regionOfInterest.map
          (fun roi => visionToUnifiedBoundingBox roi iosResult.imageSize)
        minimumTextHeight :=
          match iosResult.effectiveRequest.minimumTextHeight with
          | some v =>
              if v = 0 then none
              else some ((round (v * iosResult.imageSize.height) : ℤ) : ℚ)
          | none => none
        customWords := iosResult.effectiveRequest.customWords
        maxCandidates := some (jsOrQ iosResult.effectiveRequest.maxCandidates 5) }
    performance := some { recognitionTimeMs := some 0, regionsDetected := regions.length }
    platformResult := some { ios := some iosResult, android := none } }

/-- Body of the innermost `elements.forEach` callback in
`androidResultToUnified`: an element with no bounding box yields no region
(`if (!element.boundingBox) return`), otherwise one `UnifiedTextRegion`.
The `element.confidence || 1.0` fallback uses JavaScript truthiness
(`jsOrQ`: `undefined` and `0` both fall back to 1.0).  The `elementIndex`
parameter of the callback is unused by the source and omitted here. -/
def androidElementToRegion (imageSize : ImageDimensions) (blockIndex lineIndex : Nat)
    (element : MLKTextElement) : Option UnifiedTextRegion :=
  match element.boundingBox with
  | none => none
  | some bb =>
      let unifiedBoundingBox := mlkitToUnifiedBoundingBox bb imageSize
      let cornerPoints := element.cornerPoints.map
        (fun points => mlkitToUnifiedPoints points imageSize)
      let candidates : List UnifiedTextCandidate :=
        [{ text := element.text, confidence := jsOrQ element.confidence 1 }]
      some
        { text := element.text
          candidates := candidates
          boundingBox := unifiedBoundingBox
          cornerPoints := cornerPoints
          confidence := jsOrQ element.confidence 1
          recognizedLanguage := element.recognizedLanguage
          rotationDegree := element.rotationDegree
          platformData := some
            { ios := none
              android := some
                { hierarchyLevel := "element"
                  parentId := some ("block-" ++ toString blockIndex ++ "-line-"
                    ++ toString lineIndex)
                  childIds := some
                    (match element.symbols with
                     | some syms =>
                         (List.range syms.length).map
                           (fun symIndex => "symbol-" ++ toString symIndex)
                     | none => []) } } }

/-- `androidResultToUnified` from `src/utils/adapters.ts`: flattens the
block → line → element hierarchy (indexed `forEach` loops pushing in order
become indexed `flatMap` / `filterMap`); `fullText` is copied from the native
aggregate; `effectiveOptions` is the fixed record
`{recognitionLevel: 'accurate', recognitionLanguages: [], maxCandidates: 1}`.
`originalOptions` is accepted and ignored, exactly as in the source.
`recognitionTimeMs` is modelled as 0. -/
def androidResultToUnified (androidResult : RecognizeTextAndroidResult)
    (_originalOptions : Option UnifiedTextExtractionOptions) :
    UnifiedTextExtractionResult :=
  let regions : List UnifiedTextRegion :=
    androidResult.blocks.enum.flatMap fun blockWithIndex =>
      blockWithIndex.2.lines.enum.flatMap fun lineWithIndex =>
        lineWithIndex.2.elements.filterMap
          (androidElementToRegion androidResult.imageSize blockWithIndex.1 lineWithIndex.1)
  { regions := regions
    fullText := androidResult.fullText
    imageSize := androidResult.imageSize
    platform := "android"
    effectiveOptions :=
      { recognitionLevel := some "accurate"
        recognitionLanguages := some []
        maxCandidates := some 1 }
    performance := some { recognitionTimeMs := some 0, regionsDetected := regions.length }
    platformResult := some { ios := none, android := some androidResult } }

/-! ## Option adapters (`src/utils/adapters.ts`) -/

/-- iOS native request options (`VNRecognizeTextRequestOptions`). -/
structure VNRecognizeTextRequestOptions where
  recognitionLevel : Option String := none
  recognitionLanguages : Option (List String) := none
  usesLanguageCorrection : Option Bool := none
  customWords : Option (List String) := none
  regionOfInterest : Option VisionBox := none
  minimumTextHeight : Option ℚ := none
  maxCandidates : Option ℚ := none
deriving DecidableEq, Repr

/-- `unifiedToIosOptions` from `src/utils/adapters.ts`.  Each `if (field)`
guard is JavaScript truthiness: strings are skipped when empty, numbers when
zero; arrays and objects are copied whenever present.
`usesLanguageCorrection` is unconditionally forced to `true`. -/
def unifiedToIosOptions (unifiedOptions : UnifiedTextExtractionOptions)
    (imageSize : ImageDimensions) : VNRecognizeTextRequestOptions :=
  { recognitionLevel :=
      match unifiedOptions.recognitionLevel with
      | some s => if s = "" then none else some s
      | none => none
    recognitionLanguages := unifiedOptions.recognitionLanguages
    regionOfInterest := unifiedOptions.regionOfInterest.map
      (fun roi => unifiedToVisionBoundingBox roi imageSize)
    minimumTextHeight :=
      match unifiedOptions.minimumTextHeight with
      | some v => if v = 0 then none else some (v / imageSize.height)
      | none => none
    customWords := unifiedOptions.customWords
    maxCandidates :=
      match unifiedOptions.maxCandidates with
      | some v => if v = 0 then none else some v
      | none => none
    usesLanguageCorrection := some true }

/-- `getAndroidOptions` from `src/utils/adapters.ts`: always `{model:'latin'}`. -/
def getAndroidOptions : ExtractTextAndroidOptions :=
  { model := some "latin" }

/-- `getDefaultUnifiedOptions` from `src/utils/adapters.ts`, parameterized by
the runtime `Platform.OS` string. -/
def getDefaultUnifiedOptions (platformOS : String) : UnifiedTextExtractionOptions :=
  { recognitionLevel := some "accurate"
    recognitionLanguages := some (if platformOS = "ios" then ["en-US"] else [])
    maxCandidates := some (if platformOS = "ios" then (5 : ℚ) else 1) }

/-- JavaScript object spread `{ ...base, ...override }` on
`UnifiedTextExtractionOptions`: a field present on `override` wins, a field
absent there falls through to `base`. -/
def spreadMergeOptions (base override : UnifiedTextExtractionOptions) :
    UnifiedTextExtractionOptions :=
  { recognitionLevel := override.recognitionLevel.orElse fun _ => base.recognitionLevel
    recognitionLanguages := override.recognitionLanguages.orElse fun _ => base.recognitionLanguages
    regionOfInterest := override.regionOfInterest.orElse fun _ => base.regionOfInterest
    minimumTextHeight := override.minimumTextHeight.orElse fun _ => base.minimumTextHeight
    customWords := override.customWords.orElse fun _ => base.customWords
    maxCandidates := override.maxCandidates.orElse fun _ => base.maxCandidates }

/-! ## Unified extraction API (`src/unified.ts`) -/

/-- One recorded invocation of a native extraction function. -/
inductive NativeCall where
  | ios (uri : String) (options : VNRecognizeTextRequestOptions)
  | android (uri : String) (options : ExtractTextAndroidOptions)
deriving DecidableEq, Repr

/-- The native module surface consumed by the unified API.  The two
platform-specific extraction functions are optional (the source tests them
for truthiness) and may reject (`Except.error`), in which case the failure
propagates unmodified.  The model makes each native function a deterministic
function of its arguments. -/
structure ExpoTextExtractorModuleType where
  isSupported : Bool
  extractTextFromImageIOS :
    Option (String → VNRecognizeTextRequestOptions → Except String RecognizeTextIOSResult)
  extractTextFromImageAndroid :
    Option (String → ExtractTextAndroidOptions → Except String RecognizeTextAndroidResult)

/-- `extractTextFromImageAdvanced`, parameterized by the runtime
`Platform.OS` string and the native module.  Returns the settled promise
(`Except.ok` = resolution, `Except.error` = rejection) together with the
ordered log of native invocations performed. -/
def extractTextFromImageAdvanced (platformOS : String)
    (nativeModule : ExpoTextExtractorModuleType) (uri : String)
    (options : Option UnifiedTextExtractionOptions) :
    Except String UnifiedTextExtractionResult × List NativeCall :=
  let processedUri := jsStringReplace uri "file://" ""
  let effectiveOptions :=
    spreadMergeOptions (getDefaultUnifiedOptions platformOS) (options.getD {})
  if platformOS = "ios" then
    match nativeModule.extractTextFromImageIOS with
    | none => (.error "iOS text extraction is not available on this platform", [])
    | some callIOS =>
        let iosOptions := unifiedToIosOptions effectiveOptions { width := 1, height := 1 }
        match callIOS processedUri iosOptions with
        | .error e => (.error e, [.ios processedUri iosOptions])
        | .ok iosResult =>
            let finalIosOptions := unifiedToIosOptions effectiveOptions iosResult.imageSize
            match callIOS processedUri finalIosOptions with
            | .error e =>
                (.error e, [.ios processedUri iosOptions, .ios processedUri finalIosOptions])
            | .ok finalResult =>
                (.ok (iosResultToUnified finalResult (some effectiveOptions)),
                 [.ios processedUri iosOptions, .ios processedUri finalIosOptions])
  else if platformOS = "android" then
    match nativeModule.extractTextFromImageAndroid with
    | none => (.error "Android text extraction is not available on this platform", [])
    | some callAndroid =>
        let androidOptions := getAndroidOptions
        match callAndroid processedUri androidOptions with
        | .error e => (.error e, [.android processedUri androidOptions])
        | .ok androidResult =>
            (.ok (androidResultToUnified androidResult (some effectiveOptions)),
             [.android processedUri androidOptions])
  else
    (.error ("Text extraction is not supported on platform: " ++ platformOS), [])

/-! ## Concrete example inputs -/

/-- A word-level element with a bounding box, used to build example results. -/
def example2x2x3Element : MLKTextElement :=
  { text := "w", boundingBox := some ⟨1, 2, 3, 4⟩, cornerPoints := none
    recognizedLanguage := none, confidence := some (9/10), rotationDegree := none
    symbols := none }

/-- An Android raw result with 2 blocks × 2 lines × 3 elements, every element
carrying a bounding box. -/
def example2x2x3Result : RecognizeTextAndroidResult :=
  { blocks := List.replicate 2
      { text := "w w w w w w", boundingBox := none, cornerPoints := none
        lines := List.replicate 2
          { text := "w w w", boundingBox := none, cornerPoints := none
            elements := List.replicate 3 example2x2x3Element
            recognizedLanguage := none, confidence := none, rotationDegree := none }
        recognizedLanguage := none }
    fullText := "w w w w w w\nw w w w w w"
    imageSize := ⟨100, 100⟩
    effectiveRequestModel := "latin" }

/-! ## Derived predicates used by theorem statements -/

/-- Each pixel field of `b` is the rounded projection of the corresponding
percent field onto `s` (the spec's "percent invariant"). -/
def pixelFieldsAreRoundedPercents (b : UnifiedBoundingBox) (s : ImageDimensions) : Prop :=
  b.x = ((round (b.xPercent * s.width) : ℤ) : ℚ) ∧
  b.y = ((round (b.yPercent * s.height) : ℤ) : ℚ) ∧
  b.width = ((round (b.widthPercent * s.width) : ℤ) : ℚ) ∧
  b.height = ((round (b.heightPercent * s.height) : ℤ) : ℚ)

end TextExtractor

namespace TextExtractor

/-! ## Helper lemmas -/

/-- An element yields a region exactly when it has a bounding box. -/
lemma androidElementToRegion_isSome (s : ImageDimensions) (bi li : Nat)
    (e : MLKTextElement) :
    (androidElementToRegion s bi li e).isSome = e.boundingBox.isSome := by
  cases h : e.boundingBox <;> simp [androidElementToRegion, h]

/-- The text, confidence and candidate list of a region emitted for an
element, read off the construction. -/
lemma androidElementToRegion_shape {s : ImageDimensions} {bi li : Nat}
    {e : MLKTextElement} {reg : UnifiedTextRegion}
    (h : androidElementToRegion s bi li e = some reg) :
    reg.text = e.text ∧ reg.confidence = jsOrQ e.confidence 1 ∧
      reg.candidates = [{ text := e.text, confidence := jsOrQ e.confidence 1 }] := by
  cases hbb : e.boundingBox with
  | none => simp [androidElementToRegion, hbb] at h
  | some bb =>
      simp only [androidElementToRegion, hbb] at h
      injection h with h
      subst h
      exact ⟨rfl, rfl, rfl⟩

/-- Every region of an adapted Android result arises from some element via
`androidElementToRegion`. -/
lemma mem_android_regions {res : RecognizeTextAndroidResult}
    {o : Option UnifiedTextExtractionOptions} {reg : UnifiedTextRegion}
    (h : reg ∈ (androidResultToUnified res o).regions) :
    ∃ bi li e, androidElementToRegion res.imageSize bi li e = some reg := by
  simp only [androidResultToUnified, List.mem_flatMap, List.mem_filterMap] at h
  obtain ⟨bw, _, lw, _, e, _, he⟩ := h
  exact ⟨bw.1, lw.1, e, he⟩

/-- The second component of an entry of `List.enumFrom` is an element of the
underlying list. -/
lemma snd_mem_of_mem_enumFrom {α : Type} {p : Nat × α} :
    ∀ {n : Nat} {l : List α}, p ∈ List.enumFrom n l → p.2 ∈ l := by
  intro n l
  induction l generalizing n with
  | nil => intro h; cases h
  | cons a t ih =>
      intro h
      cases h with
      | head => exact List.mem_cons_self a t
      | tail _ h => exact List.mem_cons_of_mem a (ih h)

/-- The second component of an entry of `List.enum` is an element of the list. -/
lemma snd_mem_of_mem_enum {α : Type} {p : Nat × α} {l : List α}
    (h : p ∈ l.enum) : p.2 ∈ l :=
  snd_mem_of_mem_enumFrom h

/-- A `flatMap` whose every piece has length `k` has length `l.length * k`. -/
lemma length_flatMap_const {α β : Type} (l : List α) (f : α → List β) (k : Nat)
    (h : ∀ a ∈ l, (f a).length = k) : (l.flatMap f).length = l.length * k := by
  induction l with
  | nil => simp
  | cons a t ih =>
      simp only [List.flatMap_cons, List.length_append, List.length_cons]
      rw [h a (List.mem_cons_self a t),
        ih fun b hb => h b (List.mem_cons_of_mem a hb)]
      ring

/-- A `filterMap` whose function is `some` on every element preserves length. -/
lemma length_filterMap_of_isSome {α β : Type} (l : List α) (f : α → Option β)
    (h : ∀ a ∈ l, (f a).isSome) : (l.filterMap f).length = l.length := by
  induction l with
  | nil => rfl
  | cons a t ih =>
      obtain ⟨b, hb⟩ := Option.isSome_iff_exists.mp (h a (List.mem_cons_self a t))
      simp only [List.filterMap_cons, hb, List.length_cons]
      rw [ih fun x hx => h x (List.mem_cons_of_mem a hx)]

/-- `replaceFirstAux` on a string starting with the pattern replaces that
leading occurrence. -/
lemma replaceFirstAux_of_startsWith (pat repl s : List Char)
    (h : pat.isPrefixOf s = true) :
    replaceFirstAux pat repl s = repl ++ s.drop pat.length := by
  cases s with
  | nil =>
      cases pat with
      | nil => simp [replaceFirstAux]
      | cons c cs => simp [List.isPrefixOf] at h
  | cons c rest => simp [replaceFirstAux, h]

/-- `replaceFirstAux` leaves a string with no occurrence of the pattern
unchanged. -/
lemma replaceFirstAux_of_not_contains (pat repl : List Char) :
    ∀ s : List Char, containsSeq pat s = false → replaceFirstAux pat repl s = s := by
  intro s
  induction s with
  | nil =>
      intro h
      simp only [containsSeq] at h
      simp [replaceFirstAux, h]
  | cons c rest ih =>
      intro h
      simp only [containsSeq, Bool.or_eq_false_iff] at h
      simp [replaceFirstAux, h.1, ih h.2]

/-- C1: for any box `b` with `0 < width, height ≤ 1`, `0 ≤ x ≤ 1 - width`,
`0 ≤ y ≤ 1 - height` and any image size with positive width and height,
`unifiedToVisionBoundingBox (visionToUnifiedBoundingBox b s) s = b` exactly
(the inverse reads only the percent fields, so no rounding loss occurs;
exact equality over ℚ implies the claimed floating-point tolerance). -/
theorem vision_unified_roundtrip (b : VisionBox) (s : ImageDimensions)
    (hw0 : 0 < b.width) (hw1 : b.width ≤ 1)
    (hh0 : 0 < b.height) (hh1 : b.height ≤ 1)
    (hx0 : 0 ≤ b.x) (hx1 : b.x ≤ 1 - b.width)
    (hy0 : 0 ≤ b.y) (hy1 : b.y ≤ 1 - b.height)
    (hW : 0 < s.width) (hH : 0 < s.height) :
    unifiedToVisionBoundingBox (visionToUnifiedBoundingBox b s) s = b := by
  cases b with
  | mk x y w h =>
      simp only [unifiedToVisionBoundingBox, visionToUnifiedBoundingBox,
        VisionBox.mk.injEq, true_and, and_true]
      ring

/-- Witness for C1 at a concrete box and image size. -/
theorem vision_unified_roundtrip_witness :
    unifiedToVisionBoundingBox
      (visionToUnifiedBoundingBox ⟨1/4, 1/8, 1/2, 1/2⟩ ⟨100, 200⟩) ⟨100, 200⟩ =
      ⟨1/4, 1/8, 1/2, 1/2⟩ :=
  vision_unified_roundtrip ⟨1/4, 1/8, 1/2, 1/2⟩ ⟨100, 200⟩
    (by norm_num) (by norm_num) (by norm_num) (by norm_num)
    (by norm_num) (by norm_num) (by norm_num) (by norm_num)
    (by norm_num) (by norm_num)

/-- C3: every `UnifiedBoundingBox` produced by `visionToUnifiedBoundingBox`
or `mlkitToUnifiedBoundingBox` (positive image dimensions) satisfies the
percent invariant: each pixel field is the rounded projection of the
corresponding percent field. -/
theorem produced_boxes_satisfy_percent_invariant (s : ImageDimensions)
    (hW : 0 < s.width) (hH : 0 < s.height) (v : VisionBox) (m : RectBox) :
    pixelFieldsAreRoundedPercents (visionToUnifiedBoundingBox v s) s ∧
    pixelFieldsAreRoundedPercents (mlkitToUnifiedBoundingBox m s) s := by
  constructor
  · refine ⟨rfl, ?_, rfl, rfl⟩
    simp only [visionToUnifiedBoundingBox]
    congr 2
    ring
  · refine ⟨?_, ?_, ?_, ?_⟩ <;>
      · simp only [mlkitToUnifiedBoundingBox]
        rw [div_mul_cancel₀]
        first
        | exact ne_of_gt hW
        | exact ne_of_gt hH

/-- Witness for C3 at a concrete image size and concrete boxes. -/
theorem produced_boxes_satisfy_percent_invariant_witness :
    pixelFieldsAreRoundedPercents
      (visionToUnifiedBoundingBox ⟨1/5, 3/10, 1/10, 1/10⟩ ⟨1000, 2000⟩) ⟨1000, 2000⟩ ∧
    pixelFieldsAreRoundedPercents
      (mlkitToUnifiedBoundingBox ⟨100, 50, 40, 20⟩ ⟨1000, 500⟩) ⟨1000, 500⟩ :=
  ⟨(produced_boxes_satisfy_percent_invariant ⟨1000, 2000⟩ (by norm_num) (by norm_num)
      ⟨1/5, 3/10, 1/10, 1/10⟩ ⟨100, 50, 40, 20⟩).1,
   (produced_boxes_satisfy_percent_invariant ⟨1000, 500⟩ (by norm_num) (by norm_num)
      ⟨1/5, 3/10, 1/10, 1/10⟩ ⟨100, 50, 40, 20⟩).2⟩

/-- C9: `projectToOverlay` reads only the percent fields of a box: two boxes
agreeing on all four percent fields project identically onto the same
overlay size, whatever their pixel fields and whatever the
`originalImageSize` arguments. -/
theorem projectToOverlay_depends_only_on_percents (b1 b2 : UnifiedBoundingBox)
    (s1 s2 ov : ImageDimensions)
    (hx : b1.xPercent = b2.xPercent) (hy : b1.yPercent = b2.yPercent)
    (hw : b1.widthPercent = b2.widthPercent) (hh : b1.heightPercent = b2.heightPercent) :
    projectToOverlay (.box b1) s1 ov = projectToOverlay (.box b2) s2 ov := by
  simp only [projectToOverlay, hx, hy, hw, hh]

/-- Witness for C9: two boxes with equal percent fields but wildly different
pixel fields (and different original image sizes) project identically. -/
theorem projectToOverlay_depends_only_on_percents_witness :
    projectToOverlay (.box ⟨10, 20, 30, 40, 1/10, 1/5, 3/10, 2/5⟩) ⟨100, 100⟩ ⟨300, 200⟩ =
    projectToOverlay (.box ⟨999, 888, 777, 666, 1/10, 1/5, 3/10, 2/5⟩) ⟨5000, 4000⟩
      ⟨300, 200⟩ :=
  projectToOverlay_depends_only_on_percents _ _ _ _ _ rfl rfl rfl rfl

/-- C2 counterexample: an Android raw result whose native `fullText` is the
newline-joined block texts (as ML Kit produces) adapts to a result whose
`fullText` is NOT the space-joined concatenation of the regions' texts, so
the claimed invariant fails on the Android path. -/
theorem android_fullText_not_space_join_counterexample :
    (androidResultToUnified
        { blocks :=
            [{ text := "hello", boundingBox := none, cornerPoints := none
               lines :=
                 [{ text := "hello", boundingBox := none, cornerPoints := none
                    elements :=
                      [{ text := "hello", boundingBox := some ⟨0, 0, 10, 10⟩
                         cornerPoints := none, recognizedLanguage := none
                         confidence := none, rotationDegree := none, symbols := none }]
                    recognizedLanguage := none, confidence := none
                    rotationDegree := none }]
               recognizedLanguage := none },
             { text := "world", boundingBox := none, cornerPoints := none
               lines :=
                 [{ text := "world", boundingBox := none, cornerPoints := none
                    elements :=
                      [{ text := "world", boundingBox := some ⟨0, 20, 10, 10⟩
                         cornerPoints := none, recognizedLanguage := none
                         confidence := none, rotationDegree := none, symbols := none }]
                    recognizedLanguage := none, confidence := none
                    rotationDegree := none }]
               recognizedLanguage := none }]
          fullText := "hello\nworld"
          imageSize := ⟨100, 100⟩
          effectiveRequestModel := "latin" } none).fullText ≠
      String.intercalate " "
        ((androidResultToUnified
            { blocks :=
                [{ text := "hello", boundingBox := none, cornerPoints := none
                   lines :=
                     [{ text := "hello", boundingBox := none, cornerPoints := none
                        elements :=
                          [{ text := "hello", boundingBox := some ⟨0, 0, 10, 10⟩
                             cornerPoints := none, recognizedLanguage := none
                             confidence := none, rotationDegree := none, symbols := none }]
                        recognizedLanguage := none, confidence := none
                        rotationDegree := none }]
                   recognizedLanguage := none },
                 { text := "world", boundingBox := none, cornerPoints := none
                   lines :=
                     [{ text := "world", boundingBox := none, cornerPoints := none
                        elements :=
                          [{ text := "world", boundingBox := some ⟨0, 20, 10, 10⟩
                             cornerPoints := none, recognizedLanguage := none
                             confidence := none, rotationDegree := none, symbols := none }]
                        recognizedLanguage := none, confidence := none
                        rotationDegree := none }]
                   recognizedLanguage := none }]
              fullText := "hello\nworld"
              imageSize := ⟨100, 100⟩
              effectiveRequestModel := "latin" } none).regions.map (·.text)) := by
  decide

/-- C2 amended: the iOS adapter's `fullText` is the space-joined concatenation
of the regions' texts; the Android adapter instead copies the native result's
aggregate `fullText` field verbatim (which need not equal the space-join of
the flattened regions' texts). -/
theorem fullText_construction (iosRes : RecognizeTextIOSResult)
    (androidRes : RecognizeTextAndroidResult)
    (o o' : Option UnifiedTextExtractionOptions) :
    (iosResultToUnified iosRes o).fullText =
      String.intercalate " " ((iosResultToUnified iosRes o).regions.map (·.text)) ∧
    (androidResultToUnified androidRes o').fullText = androidRes.fullText :=
  ⟨rfl, rfl⟩

/-- C6 counterexample: an element whose native confidence is present but equal
to `0` (a JavaScript falsy value) gets candidate confidence `1`, not the
native value `0`; so "defaulting to 1.0 only when the native confidence value
is absent" fails. -/
theorem android_candidate_confidence_counterexample :
    ((androidResultToUnified
        { blocks :=
            [{ text := "w", boundingBox := none, cornerPoints := none
               lines :=
                 [{ text := "w", boundingBox := none, cornerPoints := none
                    elements :=
                      [{ text := "w", boundingBox := some ⟨0, 0, 4, 4⟩
                         cornerPoints := none, recognizedLanguage := none
                         confidence := some 0, rotationDegree := none
                         symbols := none }]
                    recognizedLanguage := none, confidence := none
                    rotationDegree := none }]
               recognizedLanguage := none }]
          fullText := "w"
          imageSize := ⟨10, 10⟩
          effectiveRequestModel := "latin" } none).regions.map
        fun reg => reg.candidates.map (·.confidence)) = [[1]] ∧
    [[(1 : ℚ)]] ≠ [[(0 : ℚ)]] :=
  ⟨rfl, by decide⟩

/-- C6 amended: each Android region's `candidates` is the single-entry list
built from the region's own text and confidence, and for an element with a
bounding box the emitted region carries the element's text and a confidence
equal to the element's native confidence when that value is present and
nonzero, defaulting to `1.0` when the native value is absent OR equal to `0`
(JavaScript `|| 1.0` treats `0` as falsy). -/
theorem android_single_candidate_confidence (res : RecognizeTextAndroidResult)
    (o : Option UnifiedTextExtractionOptions) (s : ImageDimensions) (bi li : Nat)
    (e : MLKTextElement) (bb : RectBox) (hbb : e.boundingBox = some bb) :
    ((androidResultToUnified res o).regions.map (·.candidates) =
      (androidResultToUnified res o).regions.map
        fun reg => [{ text := reg.text, confidence := reg.confidence }]) ∧
    ∃ reg, androidElementToRegion s bi li e = some reg ∧
      reg.text = e.text ∧
      reg.candidates = [{ text := e.text, confidence := reg.confidence }] ∧
      reg.confidence =
        (match e.confidence with
         | none => 1
         | some c => if c = 0 then 1 else c) := by
  constructor
  · refine List.map_congr_left fun reg hreg => ?_
    obtain ⟨bi', li', e', he'⟩ := mem_android_regions hreg
    obtain ⟨ht, hc, hcand⟩ := androidElementToRegion_shape he'
    rw [hcand, ht, hc]
  · have hsome : (androidElementToRegion s bi li e).isSome := by
      rw [androidElementToRegion_isSome, hbb]
      rfl
    obtain ⟨reg, hreg⟩ := Option.isSome_iff_exists.mp hsome
    obtain ⟨ht, hc, hcand⟩ := androidElementToRegion_shape hreg
    refine ⟨reg, hreg, ht, by rw [hcand, hc], ?_⟩
    rw [hc]
    cases e.confidence with
    | none => rfl
    | some c => rfl

/-- Witness for C6 amended, at a concrete Android result containing one
element with native confidence `1/2`: the emitted region keeps text `"hi"`
and confidence `1/2`. -/
theorem android_single_candidate_confidence_witness :
    (MLKTextElement.mk "hi" (some ⟨0, 0, 4, 4⟩) none none (some (1/2)) none
        none).boundingBox = some ⟨0, 0, 4, 4⟩ ∧
    (((androidResultToUnified
        { blocks :=
            [{ text := "hi", boundingBox := none, cornerPoints := none
               lines :=
                 [{ text := "hi", boundingBox := none, cornerPoints := none
                    elements :=
                      [{ text := "hi", boundingBox := some ⟨0, 0, 4, 4⟩
                         cornerPoints := none, recognizedLanguage := none
                         confidence := some (1/2), rotationDegree := none
                         symbols := none }]
                    recognizedLanguage := none, confidence := none
                    rotationDegree := none }]
               recognizedLanguage := none }]
          fullText := "hi"
          imageSize := ⟨10, 10⟩
          effectiveRequestModel := "latin" } none).regions.map (·.candidates) =
      (androidResultToUnified
        { blocks :=
            [{ text := "hi", boundingBox := none, cornerPoints := none
               lines :=
                 [{ text := "hi", boundingBox := none, cornerPoints := none
                    elements :=
                      [{ text := "hi", boundingBox := some ⟨0, 0, 4, 4⟩
                         cornerPoints := none, recognizedLanguage := none
                         confidence := some (1/2), rotationDegree := none
                         symbols := none }]
                    recognizedLanguage := none, confidence := none
                    rotationDegree := none }]
               recognizedLanguage := none }]
          fullText := "hi"
          imageSize := ⟨10, 10⟩
          effectiveRequestModel := "latin" } none).regions.map
        fun reg => [{ text := reg.text, confidence := reg.confidence }]) ∧
    ∃ reg, androidElementToRegion ⟨10, 10⟩ 0 0
        (MLKTextElement.mk "hi" (some ⟨0, 0, 4, 4⟩) none none (some (1/2)) none
          none) = some reg ∧
      reg.text = (MLKTextElement.mk "hi" (some ⟨0, 0, 4, 4⟩) none none
        (some (1/2)) none none).text ∧
      reg.candidates = [{ text := (MLKTextElement.mk "hi" (some ⟨0, 0, 4, 4⟩)
        none none (some (1/2)) none none).text, confidence := reg.confidence }] ∧
      reg.confidence =
        (match (MLKTextElement.mk "hi" (some ⟨0, 0, 4, 4⟩) none none
            (some (1/2)) none none).confidence with
         | none => 1
         | some c => if c = 0 then 1 else c)) :=
  ⟨rfl,
   android_single_candidate_confidence
     { blocks :=
         [{ text := "hi", boundingBox := none, cornerPoints := none
            lines :=
              [{ text := "hi", boundingBox := none, cornerPoints := none
                 elements :=
                   [{ text := "hi", boundingBox := some ⟨0, 0, 4, 4⟩
                      cornerPoints := none, recognizedLanguage := none
                      confidence := some (1/2), rotationDegree := none
                      symbols := none }]
                 recognizedLanguage := none, confidence := none
                 rotationDegree := none }]
            recognizedLanguage := none }]
       fullText := "hi"
       imageSize := ⟨10, 10⟩
       effectiveRequestModel := "latin" } none ⟨10, 10⟩ 0 0
     (MLKTextElement.mk "hi" (some ⟨0, 0, 4, 4⟩) none none (some (1/2)) none none)
     ⟨0, 0, 4, 4⟩ rfl⟩

/-- C4: when the runtime platform is neither "ios" nor "android" the unified
extraction API rejects with an unsupported-platform error naming the
platform, and the native call log is empty (no native extraction function is
invoked). -/
theorem unsupported_platform_rejects (platformOS : String)
    (nativeModule : ExpoTextExtractorModuleType) (uri : String)
    (options : Option UnifiedTextExtractionOptions)
    (hios : platformOS ≠ "ios") (handroid : platformOS ≠ "android") :
    extractTextFromImageAdvanced platformOS nativeModule uri options =
      (.error ("Text extraction is not supported on platform: " ++ platformOS),
       []) := by
  simp [extractTextFromImageAdvanced, hios, handroid]

/-- Witness for C4: on platform "web", with both native extraction functions
present, the call still rejects naming the platform and performs no native
call. -/
theorem unsupported_platform_rejects_witness :
    ("web" : String) ≠ "ios" ∧ ("web" : String) ≠ "android" ∧
    extractTextFromImageAdvanced "web"
      { isSupported := true
        extractTextFromImageIOS := some fun _ _ => Except.error "native failure"
        extractTextFromImageAndroid := some fun _ _ => Except.error "native failure" }
      "file://img.png" none =
      (.error ("Text extraction is not supported on platform: " ++ "web"), []) :=
  ⟨by decide, by decide,
   unsupported_platform_rejects "web"
     { isSupported := true
       extractTextFromImageIOS := some fun _ _ => Except.error "native failure"
       extractTextFromImageAndroid := some fun _ _ => Except.error "native failure" }
     "file://img.png" none (by decide) (by decide)⟩

/-- C5 counterexample: `uri.replace('file://', '')` removes the FIRST
occurrence of `file://` anywhere, not only a leading scheme: a uri in which
`file://` occurs but not as a leading prefix is passed to the native layer
changed, refuting "the uri passed to the native layer is unchanged". -/
theorem uri_not_only_leading_counterexample :
    ("file://".toList.isPrefixOf "content://a/file://b.png".toList) = false ∧
    (extractTextFromImageAdvanced "android"
        { isSupported := true
          extractTextFromImageIOS := none
          extractTextFromImageAndroid := some fun u _ => Except.error u }
        "content://a/file://b.png" none).2 =
      [.android "content://a/b.png" getAndroidOptions] ∧
    ("content://a/b.png" : String) ≠ "content://a/file://b.png" :=
  ⟨by decide, rfl, by decide⟩

/-- C5 amended: `extractTextFromImageAdvanced` passes to the native layer the
uri with the FIRST occurrence of `file://` (anywhere in the string) removed:
a leading `file://` scheme is stripped, and a uri not containing `file://` at
all is passed unchanged. -/
theorem uri_first_occurrence_stripped (uri : String)
    (nativeModule : ExpoTextExtractorModuleType)
    (f : String → ExtractTextAndroidOptions → Except String RecognizeTextAndroidResult)
    (hf : nativeModule.extractTextFromImageAndroid = some f) :
    (extractTextFromImageAdvanced "android" nativeModule uri none).2 =
      [.android (jsStringReplace uri "file://" "") getAndroidOptions] ∧
    ("file://".toList.isPrefixOf uri.toList = true →
      (jsStringReplace uri "file://" "").toList = uri.toList.drop 7) ∧
    (containsSeq "file://".toList uri.toList = false →
      jsStringReplace uri "file://" "" = uri) := by
  refine ⟨?_, ?_, ?_⟩
  · simp only [extractTextFromImageAdvanced, hf]
    rw [if_pos trivial]
    cases f (jsStringReplace uri "file://" "") getAndroidOptions <;> rfl
  · intro h
    show replaceFirstAux "file://".toList "".toList uri.toList = uri.toList.drop 7
    rw [replaceFirstAux_of_startsWith _ _ _ h]
    rfl
  · intro h
    show String.mk (replaceFirstAux "file://".toList "".toList uri.toList) = uri
    rw [replaceFirstAux_of_not_contains _ _ _ h]
    rfl

/-- Witness for C5 amended: a uri with a leading `file://` scheme reaches the
native layer with the scheme stripped. -/
theorem uri_first_occurrence_stripped_witness :
    (ExpoTextExtractorModuleType.mk true none
        (some fun u _ => Except.error u)).extractTextFromImageAndroid =
      some (fun u _ => Except.error u) ∧
    (extractTextFromImageAdvanced "android"
        (ExpoTextExtractorModuleType.mk true none (some fun u _ => Except.error u))
        "file:///tmp/a.png" none).2 =
      [.android (jsStringReplace "file:///tmp/a.png" "file://" "")
        getAndroidOptions] ∧
    jsStringReplace "file:///tmp/a.png" "file://" "" = "/tmp/a.png" :=
  ⟨rfl,
   (uri_first_occurrence_stripped "file:///tmp/a.png"
     (ExpoTextExtractorModuleType.mk true none (some fun u _ => Except.error u))
     (fun u _ => Except.error u) rfl).1,
   by decide⟩

/-- C7: the effective options of the unified API are the platform defaults
overridden field-wise by the caller's options (the API computes
`spreadMergeOptions (getDefaultUnifiedOptions platformOS) options`): every
field the caller supplies wins, every field left unset falls through to
`getDefaultUnifiedOptions`. -/
theorem effective_options_merge (platformOS : String)
    (options : UnifiedTextExtractionOptions) :
    ((∀ v, options.recognitionLevel = some v →
        (spreadMergeOptions (getDefaultUnifiedOptions platformOS)
          options).recognitionLevel = some v) ∧
      (options.recognitionLevel = none →
        (spreadMergeOptions (getDefaultUnifiedOptions platformOS)
          options).recognitionLevel =
          (getDefaultUnifiedOptions platformOS).recognitionLevel)) ∧
    ((∀ v, options.recognitionLanguages = some v →
        (spreadMergeOptions (getDefaultUnifiedOptions platformOS)
          options).recognitionLanguages = some v) ∧
      (options.recognitionLanguages = none →
        (spreadMergeOptions (getDefaultUnifiedOptions platformOS)
          options).recognitionLanguages =
          (getDefaultUnifiedOptions platformOS).recognitionLanguages)) ∧
    ((∀ v, options.regionOfInterest = some v →
        (spreadMergeOptions (getDefaultUnifiedOptions platformOS)
          options).regionOfInterest = some v) ∧
      (options.regionOfInterest = none →
        (spreadMergeOptions (getDefaultUnifiedOptions platformOS)
          options).regionOfInterest =
          (getDefaultUnifiedOptions platformOS).regionOfInterest)) ∧
    ((∀ v, options.minimumTextHeight = some v →
        (spreadMergeOptions (getDefaultUnifiedOptions platformOS)
          options).minimumTextHeight = some v) ∧
      (options.minimumTextHeight = none →
        (spreadMergeOptions (getDefaultUnifiedOptions platformOS)
          options).minimumTextHeight =
          (getDefaultUnifiedOptions platformOS).minimumTextHeight)) ∧
    ((∀ v, options.customWords = some v →
        (spreadMergeOptions (getDefaultUnifiedOptions platformOS)
          options).customWords = some v) ∧
      (options.customWords = none →
        (spreadMergeOptions (getDefaultUnifiedOptions platformOS)
          options).customWords =
          (getDefaultUnifiedOptions platformOS).customWords)) ∧
    ((∀ v, options.maxCandidates = some v →
        (spreadMergeOptions (getDefaultUnifiedOptions platformOS)
          options).maxCandidates = some v) ∧
      (options.maxCandidates = none →
        (spreadMergeOptions (getDefaultUnifiedOptions platformOS)
          options).maxCandidates =
          (getDefaultUnifiedOptions platformOS).maxCandidates)) := by
  refine ⟨⟨?_, ?_⟩, ⟨?_, ?_⟩, ⟨?_, ?_⟩, ⟨?_, ?_⟩, ⟨?_, ?_⟩, ⟨?_, ?_⟩⟩
  all_goals
    intros
    simp_all [spreadMergeOptions, Option.orElse]

/-- Witness for C7: on platform "android", merging the caller options
`{recognitionLevel: 'fast'}` keeps the caller's recognition level and falls
through to the default `maxCandidates`. -/
theorem effective_options_merge_witness :
    ({ recognitionLevel := some "fast" } :
      UnifiedTextExtractionOptions).recognitionLevel = some "fast" ∧
    (spreadMergeOptions (getDefaultUnifiedOptions "android")
      { recognitionLevel := some "fast" }).recognitionLevel = some "fast" ∧
    ({ recognitionLevel := some "fast" } :
      UnifiedTextExtractionOptions).maxCandidates = none ∧
    (spreadMergeOptions (getDefaultUnifiedOptions "android")
      { recognitionLevel := some "fast" }).maxCandidates =
      (getDefaultUnifiedOptions "android").maxCandidates :=
  ⟨rfl,
   (effective_options_merge "android" { recognitionLevel := some "fast" }).1.1
     "fast" rfl,
   rfl,
   (effective_options_merge "android"
     { recognitionLevel := some "fast" }).2.2.2.2.2.2 rfl⟩

/-- C8: an Android raw result with 2 blocks, each of 2 lines, each of 3
elements, all elements carrying bounding boxes, flattens to exactly 12
regions, each with exactly 1 candidate. -/
theorem android_flattening_counts (res : RecognizeTextAndroidResult)
    (o : Option UnifiedTextExtractionOptions)
    (hb : res.blocks.length = 2)
    (hl : res.blocks.all (fun b => b.lines.length == 2) = true)
    (he : res.blocks.all (fun b => b.lines.all fun l =>
      l.elements.length == 3) = true)
    (hbb : res.blocks.all (fun b => b.lines.all fun l =>
      l.elements.all fun e => e.boundingBox.isSome) = true) :
    (androidResultToUnified res o).regions.length = 12 ∧
    ∀ reg ∈ (androidResultToUnified res o).regions,
      reg.candidates.length = 1 := by
  simp only [List.all_eq_true, beq_iff_eq] at hl he hbb
  have hregions : (androidResultToUnified res o).regions =
      res.blocks.enum.flatMap fun bw =>
        bw.2.lines.enum.flatMap fun lw =>
          lw.2.elements.filterMap
            (androidElementToRegion res.imageSize bw.1 lw.1) := rfl
  constructor
  · rw [hregions]
    have h6 : ∀ bw ∈ res.blocks.enum,
        (bw.2.lines.enum.flatMap fun lw =>
          lw.2.elements.filterMap
            (androidElementToRegion res.imageSize bw.1 lw.1)).length = 6 := by
      intro bw hbw
      have hbmem := snd_mem_of_mem_enum hbw
      have h3 : ∀ lw ∈ bw.2.lines.enum,
          (lw.2.elements.filterMap
            (androidElementToRegion res.imageSize bw.1 lw.1)).length = 3 := by
        intro lw hlw
        have hlmem := snd_mem_of_mem_enum hlw
        rw [length_filterMap_of_isSome]
        · exact he bw.2 hbmem lw.2 hlmem
        · intro e hemem
          rw [androidElementToRegion_isSome]
          exact hbb bw.2 hbmem lw.2 hlmem e hemem
      rw [length_flatMap_const _ _ 3 h3, List.enum_length, hl bw.2 hbmem]
    rw [length_flatMap_const _ _ 6 h6, List.enum_length, hb]
  · intro reg hreg
    obtain ⟨bi, li, e, he'⟩ := mem_android_regions hreg
    rw [(androidElementToRegion_shape he').2.2]
    rfl

/-- Witness for C8 at a concrete 2 × 2 × 3 Android result. -/
theorem android_flattening_counts_witness :
    example2x2x3Result.blocks.length = 2 ∧
    example2x2x3Result.blocks.all (fun b => b.lines.length == 2) = true ∧
    example2x2x3Result.blocks.all (fun b => b.lines.all fun l =>
      l.elements.length == 3) = true ∧
    example2x2x3Result.blocks.all (fun b => b.lines.all fun l =>
      l.elements.all fun e => e.boundingBox.isSome) = true ∧
    ((androidResultToUnified example2x2x3Result none).regions.length = 12 ∧
      ∀ reg ∈ (androidResultToUnified example2x2x3Result none).regions,
        reg.candidates.length = 1) :=
  ⟨rfl, rfl, rfl, rfl,
   android_flattening_counts example2x2x3Result none rfl rfl rfl rfl⟩

/-- C10: the Android adapter's echoed `effectiveOptions` is the fixed record
`{recognitionLevel: 'accurate', recognitionLanguages: [], maxCandidates: 1}`
for every input, and the whole adapted result is independent of the
`originalOptions` argument (the adapter never reads it). -/
theorem android_effectiveOptions_constant (res : RecognizeTextAndroidResult)
    (o o' : Option UnifiedTextExtractionOptions) :
    (androidResultToUnified res o).effectiveOptions =
      { recognitionLevel := some "accurate", recognitionLanguages := some []
        maxCandidates := some 1 } ∧
    androidResultToUnified res o = androidResultToUnified res o' :=
  ⟨rfl, rfl⟩

end TextExtractor
